import Mathlib

/-!
Verification of `exp/exp_long_term_forecasting.py` (Time-Series-Library fork):
the SLA-focused loss, criterion selection, the training/eval/predict loop
data-shaping contracts, the time-feature-mask padding, and the channel-tiling
shim.  Tensors are modelled elementwise over ℚ: a per-element operation acts on
a flat list of (prediction, target) pairs, a [B, T, C] tensor restricted to one
batch element becomes a list (time axis) of lists (channel axis).
-/

namespace LTF

/-- Parameters of `SLAFocusedLoss.__init__` (defaults: sla 0.200, good 0.100,
high 15.0, low 8.0, normal 1.0). -/
structure SLAFocusedLoss where
  sla_threshold : ℚ
  good_threshold : ℚ
  high_penalty : ℚ
  low_penalty : ℚ
  normal_penalty : ℚ
deriving DecidableEq

/-- The per-element penalty weight after the three masked assignments in
`SLAFocusedLoss.forward`: `weights = ones * normal_penalty`, then
`weights[targets > sla_threshold] = high_penalty`, then
`weights[targets < good_threshold] = low_penalty` (the later assignment
overrides the earlier one where both masks hold). -/
def baseWeight (L : SLAFocusedLoss) (t : ℚ) : ℚ :=
  if t < L.good_threshold then L.low_penalty
  else if t > L.sla_threshold then L.high_penalty
  else L.normal_penalty

/-- The final per-element weight of `SLAFocusedLoss.forward`, after the
severe-underprediction escalation
`severe_underpredict = (targets > sla_threshold) & (predictions < sla_threshold - 50)`;
`weights[severe_underpredict] *= 2.0`. -/
def elemWeight (L : SLAFocusedLoss) (p t : ℚ) : ℚ :=
  if t > L.sla_threshold ∧ p < L.sla_threshold - 50 then 2 * baseWeight L t
  else baseWeight L t

/-- `SLAFocusedLoss.forward(predictions, targets)` on the flattened list of
(prediction, target) element pairs:
`torch.mean(weights * (predictions - targets) ** 2)`. -/
def SLAFocusedLoss.forward (L : SLAFocusedLoss) (pairs : List (ℚ × ℚ)) : ℚ :=
  (pairs.map (fun pt => elemWeight L pt.1 pt.2 * (pt.1 - pt.2) ^ 2)).sum / pairs.length

/-- Plain (unweighted) mean squared error over the same flattened element
pairs, as computed by `nn.MSELoss()`. -/
def mseLoss (pairs : List (ℚ × ℚ)) : ℚ :=
  (pairs.map (fun pt => (pt.1 - pt.2) ^ 2)).sum / pairs.length

end LTF

namespace LTF

lemma sum_map_const_mul_of_forall {α : Type} (c : ℚ) (f g : α → ℚ) :
    ∀ (l : List α), (∀ a ∈ l, f a = c * g a) → (l.map f).sum = c * (l.map g).sum := by
  intro l
  induction l with
  | nil => intro _; simp
  | cons a tl ih =>
    intro h
    simp only [List.map_cons, List.sum_cons]
    rw [h a (List.mem_cons_self a tl), ih (fun b hb => h b (List.mem_cons_of_mem a hb))]
    ring

lemma forward_eq_const_mul_mse (L : SLAFocusedLoss) (c : ℚ) (pairs : List (ℚ × ℚ))
    (h : ∀ pt ∈ pairs, elemWeight L pt.1 pt.2 = c) :
    L.forward pairs = c * mseLoss pairs := by
  unfold SLAFocusedLoss.forward mseLoss
  rw [sum_map_const_mul_of_forall c _ _ pairs]
  · ring
  · intro pt hpt
    rw [h pt hpt]

end LTF

namespace LTF

/-- C1: the claim as stated fails on the code: with the default parameters
(sla 200, good 100, high 15, low 8, normal 1 in the units of the thresholds)
and the single element (prediction 100, target 300), every target is strictly
above the SLA threshold, yet the returned loss is 2 * 15 * MSE, not
15 * MSE: the severe-underprediction escalation fires because
100 < 200 - 50. -/
theorem C1_counterexample :
    (∀ pt ∈ [((100 : ℚ), (300 : ℚ))], pt.2 > (200 : ℚ)) ∧
    SLAFocusedLoss.forward ⟨200, 100, 15, 8, 1⟩ [((100 : ℚ), (300 : ℚ))] ≠
      15 * mseLoss [((100 : ℚ), (300 : ℚ))] := by
  constructor
  · intro pt hpt
    simp only [List.mem_singleton] at hpt
    subst hpt
    norm_num
  · simp only [SLAFocusedLoss.forward, mseLoss, elemWeight, baseWeight]
    norm_num

/-- C1 (amended): for `good_threshold < sla_threshold`, targets all strictly
below the good threshold give `low_penalty * MSE`; targets all strictly above
the SLA threshold give `high_penalty * MSE` provided additionally no
prediction is more than 50 below the SLA threshold (otherwise the severe
escalation doubles that element's weight); targets all strictly between the
thresholds give `normal_penalty * MSE`. -/
theorem C1_amended (L : SLAFocusedLoss) (pairs : List (ℚ × ℚ))
    (hgs : L.good_threshold < L.sla_threshold) :
    ((∀ pt ∈ pairs, pt.2 < L.good_threshold) →
        L.forward pairs = L.low_penalty * mseLoss pairs) ∧
    ((∀ pt ∈ pairs, pt.2 > L.sla_threshold ∧ ¬ pt.1 < L.sla_threshold - 50) →
        L.forward pairs = L.high_penalty * mseLoss pairs) ∧
    ((∀ pt ∈ pairs, L.good_threshold < pt.2 ∧ pt.2 < L.sla_threshold) →
        L.forward pairs = L.normal_penalty * mseLoss pairs) := by
  refine ⟨fun h => ?_, fun h => ?_, fun h => ?_⟩
  · apply forward_eq_const_mul_mse
    intro pt hpt
    have ht := h pt hpt
    have hnot : ¬ (pt.2 > L.sla_threshold ∧ pt.1 < L.sla_threshold - 50) := by
      rintro ⟨h1, -⟩; linarith
    simp only [elemWeight, baseWeight]
    rw [if_neg hnot, if_pos ht]
  · apply forward_eq_const_mul_mse
    intro pt hpt
    obtain ⟨ht, hp⟩ := h pt hpt
    have hnot : ¬ (pt.2 > L.sla_threshold ∧ pt.1 < L.sla_threshold - 50) := by
      rintro ⟨-, h2⟩; exact hp h2
    have hng : ¬ pt.2 < L.good_threshold := by linarith
    simp only [elemWeight, baseWeight]
    rw [if_neg hnot, if_neg hng, if_pos ht]
  · apply forward_eq_const_mul_mse
    intro pt hpt
    obtain ⟨h1, h2⟩ := h pt hpt
    have hnot : ¬ (pt.2 > L.sla_threshold ∧ pt.1 < L.sla_threshold - 50) := by
      rintro ⟨hc, -⟩; linarith
    have hng : ¬ pt.2 < L.good_threshold := by linarith
    have hns : ¬ pt.2 > L.sla_threshold := by linarith
    simp only [elemWeight, baseWeight]
    rw [if_neg hnot, if_neg hng, if_neg hns]

/-- Witness for C1 (amended) at the default parameters with the single
element (prediction 0, target 50): target below the good threshold, loss is
`low_penalty * MSE`. -/
theorem C1_amended_witness :
    SLAFocusedLoss.forward ⟨200, 100, 15, 8, 1⟩ [((0 : ℚ), (50 : ℚ))] =
      8 * mseLoss [((0 : ℚ), (50 : ℚ))] := by
  refine (C1_amended ⟨200, 100, 15, 8, 1⟩ [((0 : ℚ), (50 : ℚ))] (by norm_num)).1 ?_
  intro pt hpt
  simp only [List.mem_singleton] at hpt
  subst hpt
  norm_num

/-- C5: an element with target above the SLA threshold and prediction more
than 50 units below the SLA threshold gets exactly double the weight of an
otherwise-identical element whose prediction is not that far below; when
`good_threshold ≤ sla_threshold` (as in every configuration built by the
code with a positive scaler scale) the two weights are `2 * high_penalty`
and `high_penalty`. -/
theorem C5_escalation_doubles_weight (L : SLAFocusedLoss) (p1 p2 t : ℚ)
    (ht : t > L.sla_threshold)
    (h1 : p1 < L.sla_threshold - 50)
    (h2 : ¬ p2 < L.sla_threshold - 50) :
    elemWeight L p1 t = 2 * elemWeight L p2 t ∧
    (L.good_threshold ≤ L.sla_threshold →
      elemWeight L p2 t = L.high_penalty ∧ elemWeight L p1 t = 2 * L.high_penalty) := by
  have e1 : elemWeight L p1 t = 2 * baseWeight L t := by
    simp only [elemWeight]
    rw [if_pos ⟨ht, h1⟩]
  have e2 : elemWeight L p2 t = baseWeight L t := by
    simp only [elemWeight]
    rw [if_neg (fun hc => h2 hc.2)]
  refine ⟨by rw [e1, e2], fun hgs => ?_⟩
  have hb : baseWeight L t = L.high_penalty := by
    have hng : ¬ t < L.good_threshold := by linarith
    simp only [baseWeight]
    rw [if_neg hng, if_pos ht]
  exact ⟨by rw [e2, hb], by rw [e1, hb]⟩

/-- Witness for C5 at the default parameters: target 300, severe prediction
100 versus close prediction 290. -/
theorem C5_escalation_doubles_weight_witness :
    elemWeight ⟨200, 100, 15, 8, 1⟩ 100 300 = 2 * elemWeight ⟨200, 100, 15, 8, 1⟩ 290 300 ∧
    elemWeight ⟨200, 100, 15, 8, 1⟩ 290 300 = 15 ∧
    elemWeight ⟨200, 100, 15, 8, 1⟩ 100 300 = 2 * 15 := by
  have h := C5_escalation_doubles_weight ⟨200, 100, 15, 8, 1⟩ 100 290 300
    (by norm_num) (by norm_num) (by norm_num)
  exact ⟨h.1, h.2 (by norm_num)⟩

/-- C9: the `targets < good_threshold` assignment comes after the
`targets > sla_threshold` assignment, so it wins on elements satisfying
both (reachable when `good_threshold > sla_threshold`, e.g. under a
negative scaler scale): the base weight is `low_penalty`. -/
theorem C9_low_overrides_high (L : SLAFocusedLoss) (t : ℚ)
    (hgs : L.sla_threshold < L.good_threshold)
    (h1 : L.sla_threshold < t) (h2 : t < L.good_threshold) :
    baseWeight L t = L.low_penalty := by
  simp only [baseWeight]
  rw [if_pos h2]

/-- Witness for C9: with sla threshold 0, good threshold 1, target 1/2 is
above the SLA threshold and below the good threshold, and the base weight is
the low penalty 8. -/
theorem C9_low_overrides_high_witness :
    baseWeight ⟨0, 1, 15, 8, 1⟩ (1/2) = 8 :=
  C9_low_overrides_high ⟨0, 1, 15, 8, 1⟩ (1/2) (by norm_num) (by norm_num) (by norm_num)

end LTF

namespace LTF

/-- The fitted scaler fields used by `_select_criterion`: `mean_` and
`scale_` at the target column index (-1, the last channel). -/
structure ScalerModel where
  mean_last : ℚ
  scale_last : ℚ
deriving DecidableEq

/-- The criterion returned by `_select_criterion`: either `nn.MSELoss()` or
an `SLAFocusedLoss` instance. -/
inductive Criterion where
  | mse : Criterion
  | sla : SLAFocusedLoss → Criterion
deriving DecidableEq

/-- Python `str.upper()` on one ASCII character: letters `a`-`z` (code
points 97-122) are shifted down by 32, everything else is unchanged. -/
def pyCharUpper (c : Char) : Char :=
  if 97 ≤ c.toNat ∧ c.toNat ≤ 122 then Char.ofNat (c.toNat - 32) else c

/-- Python `str.upper()` on an ASCII string, as a map over its characters. -/
def pyUpper (s : String) : String :=
  String.mk (s.data.map pyCharUpper)

/-- `Exp_Long_Term_Forecast._select_criterion`:
`loss_type = getattr(self.args, 'loss', 'MSE').upper()`; on `'SLA'` it builds
an `SLAFocusedLoss` with thresholds `(0.100 - mean_) / scale_` and
`(0.200 - mean_) / scale_` and penalties 15.0 / 3.0 / 1.0; on `'MSE'` it
builds `nn.MSELoss()`; any other value reaches `return criterion` with
`criterion` never assigned, raising `UnboundLocalError`. -/
def select_criterion (loss : Option String) (scaler : ScalerModel) : Except String Criterion :=
  let loss_type := pyUpper (loss.getD "MSE")
  if loss_type = "SLA" then
    let scaled_low := (1/10 - scaler.mean_last) / scaler.scale_last
    let scaled_high := (1/5 - scaler.mean_last) / scaler.scale_last
    Except.ok (Criterion.sla ⟨scaled_high, scaled_low, 15, 3, 1⟩)
  else if loss_type = "MSE" then
    Except.ok Criterion.mse
  else
    Except.error "UnboundLocalError: local variable criterion referenced before assignment"

/-- C2: the claim as stated fails on the code: when the loss kind is missing
from the configuration, `getattr(self.args, 'loss', 'MSE')` silently defaults
to `'MSE'` and a standard MSE criterion is returned; no error is raised. -/
theorem C2_counterexample :
    select_criterion Option.none ⟨0, 1⟩ = Except.ok Criterion.mse := by
  rfl

/-- C2 (amended): a missing loss kind silently defaults to the MSE
criterion; a present loss kind that upper-cases to neither `'SLA'` nor
`'MSE'` makes the selection fail (an unbound-local `criterion` error), not a
dedicated "unsupported loss" error. -/
theorem C2_amended (loss : Option String) (scaler : ScalerModel) :
    select_criterion Option.none scaler = Except.ok Criterion.mse ∧
    (pyUpper (loss.getD "MSE") ≠ "SLA" → pyUpper (loss.getD "MSE") ≠ "MSE" →
      select_criterion loss scaler =
        Except.error "UnboundLocalError: local variable criterion referenced before assignment") := by
  constructor
  · rfl
  · intro h1 h2
    simp only [select_criterion]
    rw [if_neg h1, if_neg h2]

/-- Witness for C2 (amended) with the unsupported loss kind "huber": the
selection errors out. -/
theorem C2_amended_witness :
    select_criterion (Option.some "huber") ⟨0, 1⟩ =
      Except.error "UnboundLocalError: local variable criterion referenced before assignment" :=
  (C2_amended (Option.some "huber") ⟨0, 1⟩).2 (by decide) (by decide)

/-- The epoch control flow of `Exp_Long_Term_Forecast.train`: for
`epoch in range(train_epochs)` run the epoch body, call the early-stopping
controller, `break` when `early_stopping.early_stop` is set, and only
otherwise reach `adjust_learning_rate(model_optim, epoch + 1, self.args)`.
The controller is abstracted as the boolean signal `stop e` (the value of
`early_stop` observed right after epoch `e`'s controller call).  Arguments:
remaining epochs, current epoch index, signal.  Returns the list of
completed epochs and the list of `epoch + 1` values at which
`adjust_learning_rate` was called. -/
def trainLoop : ℕ → ℕ → (ℕ → Bool) → List ℕ × List ℕ
  | 0, _, _ => ([], [])
  | n + 1, e, stop =>
    if stop e then ([e], [])
    else
      let r := trainLoop n (e + 1) stop
      (e :: r.1, (e + 1) :: r.2)

/-- C3: the claim as stated fails on the code: with one training epoch and a
controller that signals stop on epoch 0, epoch 0 completes but
`adjust_learning_rate` is never called for it — the `break` sits before the
adjustment call. -/
theorem C3_counterexample :
    (trainLoop 1 0 (fun _ => true)).1 = [0] ∧
    0 + 1 ∉ (trainLoop 1 0 (fun _ => true)).2 := by
  constructor
  · rfl
  · simp [trainLoop]

/-- C3 (amended): `adjust_learning_rate` is applied after every completed
epoch EXCEPT the epoch on which the early-stopping controller signals stop:
the calls are exactly the non-stopping completed epochs, shifted by one. -/
theorem C3_amended (n e : ℕ) (stop : ℕ → Bool) :
    (trainLoop n e stop).2 =
      ((trainLoop n e stop).1.filter (fun k => ! stop k)).map (· + 1) := by
  induction n generalizing e with
  | zero => rfl
  | succ n ih =>
    simp only [trainLoop]
    by_cases h : stop e
    · simp [h]
    · simp [h, ih]

end LTF

namespace LTF

/-- Python slice `t[:n]` along a tensor axis modelled as a list (`n ≥ 0`). -/
def sliceFirst {α : Type} (n : ℕ) (xs : List α) : List α := xs.take n

/-- Python slice `t[-n:]` along a tensor axis modelled as a list: the last
`n` entries when `n ≥ 1`; for `n = 0` Python reads `t[-0:]` as `t[0:]`, the
whole axis. -/
def sliceLast {α : Type} (n : ℕ) (xs : List α) : List α :=
  if n = 0 then xs else xs.drop (xs.length - n)

/-- The time-feature-mask alignment of `Exp_Long_Term_Forecast.predict`
(one batch element; the mask is its list of time-step feature vectors):
`if batch_y_mark.shape[1] != dec_inp.shape[1]:` then
`padding_needed = dec_inp.shape[1] - batch_y_mark.shape[1]` (a Python int,
possibly negative), `last_mark = batch_y_mark[:, -1:, :].repeat(1, padding_needed, 1)`,
`batch_y_mark = torch.cat([batch_y_mark, last_mark], dim=1)`.
`Tensor.repeat` with a negative repeat count raises a RuntimeError, modelled
as the error case. -/
def padYMark (y_mark : List (List ℚ)) (dec_len : ℕ) : Except String (List (List ℚ)) :=
  if y_mark.length = dec_len then Except.ok y_mark
  else
    let padding_needed : ℤ := (dec_len : ℤ) - y_mark.length
    if padding_needed < 0 then
      Except.error "RuntimeError: Trying to create tensor with negative dimension"
    else
      let last_mark :=
        (List.replicate padding_needed.toNat (y_mark.drop (y_mark.length - 1))).flatten
      Except.ok (y_mark ++ last_mark)

lemma drop_length_sub_one {α : Type} (l : List α) (h : l ≠ []) :
    l.drop (l.length - 1) = [l.getLast h] := by
  induction l with
  | nil => exact absurd rfl h
  | cons a tl ih =>
    cases tl with
    | nil => rfl
    | cons b tl2 =>
      simp only [List.length_cons, Nat.add_sub_cancel]
      rw [List.getLast_cons (List.cons_ne_nil b tl2)]
      have := ih (List.cons_ne_nil b tl2)
      simpa using this

lemma flatten_replicate_singleton {α : Type} (n : ℕ) (x : α) :
    (List.replicate n [x]).flatten = List.replicate n x := by
  induction n with
  | zero => rfl
  | succ n ih => simp [List.replicate_succ, ih]

/-- C4: the claim as stated fails on the code: at a mask of time length 2
and a decoder input of time length 1, `padding_needed = -1 ≤ 0`, yet the
mask is not left unchanged — the guard is `!=`, so the branch is entered and
`repeat` with a negative count raises a RuntimeError. -/
theorem C4_counterexample :
    padYMark [[(0 : ℚ)], [0]] 1 =
      Except.error "RuntimeError: Trying to create tensor with negative dimension" ∧
    padYMark [[(0 : ℚ)], [0]] 1 ≠ Except.ok [[(0 : ℚ)], [0]] := by
  refine ⟨rfl, ?_⟩
  intro h
  rw [show padYMark [[(0 : ℚ)], [0]] 1 =
      Except.error "RuntimeError: Trying to create tensor with negative dimension" from rfl] at h
  exact Except.noConfusion h

/-- C4 (amended): a mask strictly shorter than the decoder input is extended
by repeating its last time-step feature vector `padding_needed` times; a
mask of exactly the decoder input's length is left unchanged; a mask
strictly longer (padding_needed < 0) makes the loop fail with a negative
`repeat` error instead of being left unchanged. -/
theorem C4_amended (y_mark : List (List ℚ)) (dec_len : ℕ) (hne : y_mark ≠ []) :
    (y_mark.length < dec_len →
      padYMark y_mark dec_len =
        Except.ok (y_mark ++
          List.replicate (dec_len - y_mark.length) (y_mark.getLast hne))) ∧
    (y_mark.length = dec_len → padYMark y_mark dec_len = Except.ok y_mark) ∧
    (dec_len < y_mark.length →
      padYMark y_mark dec_len =
        Except.error "RuntimeError: Trying to create tensor with negative dimension") := by
  refine ⟨fun hlt => ?_, fun heq => ?_, fun hgt => ?_⟩
  · simp only [padYMark]
    rw [if_neg (by omega), if_neg (by omega)]
    rw [drop_length_sub_one y_mark hne, flatten_replicate_singleton]
    have htn : ((dec_len : ℤ) - (y_mark.length : ℤ)).toNat = dec_len - y_mark.length := by
      omega
    rw [htn]
  · simp only [padYMark]
    rw [if_pos heq]
  · simp only [padYMark]
    rw [if_neg (by omega), if_pos (by omega)]

/-- Witness for C4 (amended): a two-step mask padded to a four-step decoder
input repeats the last step's feature vector twice. -/
theorem C4_amended_witness :
    padYMark [[(1 : ℚ)], [2]] 4 = Except.ok [[(1 : ℚ)], [2], [2], [2]] := by
  have h := (C4_amended [[(1 : ℚ)], [2]] 4 (by simp)).1 (by norm_num)
  simpa [List.getLast] using h

/-- Decoder input of the train / vali / test loops (one batch element, time
axis as a list of channel rows):
`dec_inp = torch.zeros_like(batch_y[:, -self.args.pred_len:, :]).float()`,
then `torch.cat([batch_y[:, :self.args.label_len, :], dec_inp], dim=1)`. -/
def decInpTrain (label_len pred_len : ℕ) (y : List (List ℚ)) : List (List ℚ) :=
  sliceFirst label_len y ++ (sliceLast pred_len y).map (fun row => row.map (fun _ => 0))

/-- Decoder input of the predict loop:
`future_zeros = torch.zeros((batch_y.shape[0], self.args.pred_len, batch_y.shape[-1]))`,
`dec_inp = torch.cat([batch_y, future_zeros], dim=1)` (one batch element;
`c` is `batch_y.shape[-1]`). -/
def decInpPredict (pred_len c : ℕ) (y : List (List ℚ)) : List (List ℚ) :=
  y ++ List.replicate pred_len (List.replicate c 0)

/-- C6: the claim as stated fails on the code at `pred_len = 0`: with
`label_len = 1`, `pred_len = 0` and a batch y of time length 1 (satisfying
the invariant `label_len + pred_len`), the train-path slice
`batch_y[:, -0:, :]` is the WHOLE tensor, so the decoder input has time
length 2, not `label_len + pred_len = 1`. -/
theorem C6_counterexample :
    ([[(5 : ℚ)]] : List (List ℚ)).length = 1 + 0 ∧
    (decInpTrain 1 0 [[(5 : ℚ)]]).length ≠ 1 + 0 := by
  constructor
  · rfl
  · simp [decInpTrain, sliceFirst, sliceLast]

/-- C6 (amended): under the data-model invariants, the decoder input's time
dimension equals `label_len + pred_len` in train/vali/test whenever
`pred_len ≥ 1` (for any `label_len`, including 0; at `pred_len = 0` the
Python `-0` slice makes it `2 * label_len` instead), and in predict for all
`label_len` and `pred_len`. -/
theorem C6_amended (label_len pred_len c : ℕ) (y yp : List (List ℚ))
    (hy : y.length = label_len + pred_len) (hyp : yp.length = label_len) :
    (1 ≤ pred_len → (decInpTrain label_len pred_len y).length = label_len + pred_len) ∧
    (decInpPredict pred_len c yp).length = label_len + pred_len := by
  constructor
  · intro hp
    simp only [decInpTrain, sliceFirst, sliceLast, List.length_append,
      List.length_map, List.length_take]
    rw [if_neg (by omega)]
    simp only [List.length_drop]
    omega
  · simp [decInpPredict, hyp]

/-- Witness for C6 (amended): `label_len = 1`, `pred_len = 2`, one channel,
batch y of time length 3 (train path) and of time length 1 (predict path). -/
theorem C6_amended_witness :
    (decInpTrain 1 2 [[(0 : ℚ)], [0], [0]]).length = 1 + 2 ∧
    (decInpPredict 2 1 [[(0 : ℚ)]]).length = 1 + 2 := by
  have h := C6_amended 1 2 1 [[(0 : ℚ)], [0], [0]] [[(0 : ℚ)]] (by rfl) (by rfl)
  exact ⟨h.1 (by norm_num), h.2⟩

end LTF

namespace LTF

/-- `int(batch_y.shape[-1] / outputs.shape[-1])`: the repetition count used
by the inverse-scaling shims of `test` and `predict` (floor of the channel
count ratio; Python's `int()` truncates the true division toward zero, which
for positive counts is the floor). -/
def tileFactor (out_c tgt_c : ℕ) : ℕ := tgt_c / out_c

/-- `np.tile(outputs, [1, 1, k])` restricted to one time step of one batch
element: the channel row is repeated `k` times along the channel axis. -/
def tileChannels (k : ℕ) (row : List ℚ) : List ℚ := (List.replicate k row).flatten

/-- The channel tiling applied across the whole time axis of one batch
element. -/
def tileOutput (k : ℕ) (out : List (List ℚ)) : List (List ℚ) :=
  out.map (tileChannels k)

/-- C7: with a 1-channel model output and a 4-channel target, the shim tiles
each time step's single value into 4 channels, preserving the per-step value
pattern. -/
theorem C7_tiling_1_to_4 (steps : List ℚ) :
    tileOutput (tileFactor 1 4) (steps.map (fun v => [v])) =
      steps.map (fun v => [v, v, v, v]) ∧
    ∀ row ∈ tileOutput (tileFactor 1 4) (steps.map (fun v => [v])), row.length = 4 := by
  constructor
  · induction steps with
    | nil => rfl
    | cons a tl ih =>
      simp only [tileOutput, List.map_cons] at ih ⊢
      rw [ih]
      rfl
  · intro row hrow
    simp only [tileOutput, List.map_map, Function.comp, List.mem_map] at hrow
    obtain ⟨v, -, rfl⟩ := hrow
    rfl

/-- C10: with at least one output channel, the tiled output's channel count
is `out_c * (tgt_c / out_c)`, which equals the target channel count exactly
when `out_c` divides `tgt_c`; otherwise the counts still differ after the
shim. -/
theorem C10_tile_restores_iff_divides (out_c tgt_c : ℕ) (row : List ℚ)
    (hrow : row.length = out_c) (hpos : 1 ≤ out_c) :
    (tileChannels (tileFactor out_c tgt_c) row).length = tgt_c ↔ out_c ∣ tgt_c := by
  have hlen : (tileChannels (tileFactor out_c tgt_c) row).length = tgt_c / out_c * out_c := by
    simp [tileChannels, tileFactor, List.length_flatten, List.map_replicate,
      List.sum_replicate, smul_eq_mul, hrow]
  rw [hlen]
  constructor
  · intro h
    rw [← h]
    exact dvd_mul_left out_c (tgt_c / out_c)
  · intro h
    exact Nat.div_mul_cancel h

/-- Witness for C10: two output channels against six target channels — the
factor is 3 and the tiled row has six channels. -/
theorem C10_tile_restores_iff_divides_witness :
    (tileChannels (tileFactor 2 6) [(1 : ℚ), 2]).length = 6 :=
  (C10_tile_restores_iff_divides 2 6 [(1 : ℚ), 2] (by rfl) (by norm_num)).mpr ⟨3, rfl⟩

/-- One batch yielded by the loader, restricted to a single batch element:
the time axis is a list of channel rows. -/
structure Batch where
  x : List (List ℚ)
  y : List (List ℚ)
  x_mark : List (List ℚ)
  y_mark : List (List ℚ)

/-- The model/optimizer state the loops can observe: the parameter vector
and the train/eval mode flag toggled by `model.train()` / `model.eval()`. -/
structure ModelState where
  params : List ℚ
  training : Bool

/-- Python slice `t[f_dim:]` on the channel axis, with
`f_dim = -1 if self.args.features == "MS" else 0`. -/
def featSlice (ms : Bool) (row : List ℚ) : List ℚ :=
  if ms then sliceLast 1 row else row

/-- The per-batch body of `vali`: build the decoder input, run the (opaque)
model on the current parameters, slice outputs and targets to the last
`pred_len` time steps and the configured feature slice, and apply the
criterion to (pred, true). -/
def valiBatchLoss
    (mdl : List ℚ → List (List ℚ) → List (List ℚ) → List (List ℚ) → List (List ℚ) →
      List (List ℚ))
    (params : List ℚ) (label_len pred_len : ℕ) (ms : Bool)
    (crit : List (List ℚ) → List (List ℚ) → ℚ) (b : Batch) : ℚ :=
  let dec_inp := decInpTrain label_len pred_len b.y
  let outputs := mdl params b.x b.x_mark dec_inp b.y_mark
  let pred := (sliceLast pred_len outputs).map (featSlice ms)
  let tru := (sliceLast pred_len b.y).map (featSlice ms)
  crit pred tru

/-- `Exp_Long_Term_Forecast.vali`: `self.model.eval()`, then under
`torch.no_grad()` the per-batch losses are collected (`loss.backward()` and
`model_optim.step()` are never called: the parameters are only read),
`np.average` of the collected losses is taken, `self.model.train()` restores
training mode, and the average is returned.  The result pairs the returned
loss with the final model state. -/
def vali
    (mdl : List ℚ → List (List ℚ) → List (List ℚ) → List (List ℚ) → List (List ℚ) →
      List (List ℚ))
    (st : ModelState) (label_len pred_len : ℕ) (ms : Bool)
    (crit : List (List ℚ) → List (List ℚ) → ℚ) (batches : List Batch) :
    ℚ × ModelState :=
  let stEval : ModelState := { st with training := false }
  let total_loss := batches.map (valiBatchLoss mdl stEval.params label_len pred_len ms crit)
  (total_loss.sum / total_loss.length, { stEval with training := true })

/-- C8: on a non-empty loader, `vali` leaves the model parameters untouched
(no backward pass or optimizer step), restores training mode before
returning, and returns the unweighted mean of the per-batch losses. -/
theorem C8_vali_frame
    (mdl : List ℚ → List (List ℚ) → List (List ℚ) → List (List ℚ) → List (List ℚ) →
      List (List ℚ))
    (st : ModelState) (label_len pred_len : ℕ) (ms : Bool)
    (crit : List (List ℚ) → List (List ℚ) → ℚ) (batches : List Batch)
    (hne : batches ≠ []) :
    (vali mdl st label_len pred_len ms crit batches).2.params = st.params ∧
    (vali mdl st label_len pred_len ms crit batches).2.training = true ∧
    (vali mdl st label_len pred_len ms crit batches).1 =
      (batches.map (valiBatchLoss mdl st.params label_len pred_len ms crit)).sum /
        batches.length := by
  refine ⟨rfl, rfl, ?_⟩
  simp [vali]

/-- Witness for C8: an identity-style model, a constant criterion 7 and a
one-batch loader — vali returns 7 with the parameters preserved and the
mode back to training. -/
theorem C8_vali_frame_witness :
    (vali (fun _ _ _ dec _ => dec) ⟨[(3 : ℚ)], true⟩ 1 1 false (fun _ _ => (7 : ℚ))
        [⟨[[0]], [[1], [2]], [[0]], [[0]]⟩]).2.params = [(3 : ℚ)] ∧
    (vali (fun _ _ _ dec _ => dec) ⟨[(3 : ℚ)], true⟩ 1 1 false (fun _ _ => (7 : ℚ))
        [⟨[[0]], [[1], [2]], [[0]], [[0]]⟩]).2.training = true ∧
    (vali (fun _ _ _ dec _ => dec) ⟨[(3 : ℚ)], true⟩ 1 1 false (fun _ _ => (7 : ℚ))
        [⟨[[0]], [[1], [2]], [[0]], [[0]]⟩]).1 = 7 := by
  have h := C8_vali_frame (fun _ _ _ dec _ => dec) ⟨[(3 : ℚ)], true⟩ 1 1 false
    (fun _ _ => (7 : ℚ)) [⟨[[0]], [[1], [2]], [[0]], [[0]]⟩] (by simp)
  refine ⟨h.1, h.2.1, ?_⟩
  rw [h.2.2]
  norm_num [valiBatchLoss]

end LTF
